import Mathlib

/-!
Shallow embedding of the OtoMoto ETL pipeline (src/etl/strategy.py):
the paginated, date-bounded extraction engine (`OtoMotoETL.extarct`),
the per-listing normalizer (`_create_row_from_dict`), the accumulation
helper (`_create_df_from_row`), the page-count computation
(`_find_page_num`), the stop-date helpers, the embedded-state key
resolution (`_get_data_with_key`) and the transform stage.

Python values (results of `json.loads`, dictionary cells, pandas cells)
are embedded as the inductive `JVal`; exceptions are embedded as
`Except PyErr` results or dedicated outcome inductives mirroring which
handler (listing-level, page-level, run-level) receives them.
-/

set_option maxRecDepth 100000

namespace CarData

/-- Python exception classes that the embedded code can raise. -/
inductive PyErr where
  | assertionError
  | valueError
  | keyError
  | typeError
  | runtimeError
  | requestError
  deriving DecidableEq, Repr

/-- A Python `datetime`: a civil day number (days since 1970-01-01,
via the standard civil-from-days bijection) plus the seconds elapsed
inside that day.  `datetime.replace(hour=0, minute=0, second=0,
microsecond=0)` zeroes the `sec` field; `timedelta(days=n)` shifts the
`days` field. -/
structure PyDateTime where
  days : Int
  sec : Nat
  deriving DecidableEq, Repr

/-- Strict `datetime` comparison `a > b` (lexicographic on day then
time-of-day), as used by `stop_date > creation_date`. -/
def dtGT (a b : PyDateTime) : Bool :=
  a.days > b.days || (a.days == b.days && a.sec > b.sec)

/-- Day count since 1970-01-01 of a civil date (y, m, d); the standard
days-from-civil computation. -/
def daysFromCivil (y : Int) (m d : Nat) : Int :=
  let y2 : Int := if m ≤ 2 then y - 1 else y
  let era : Int := (if y2 ≥ 0 then y2 else y2 - 399) / 400
  let yoe : Int := y2 - era * 400
  let mp : Int := if m > 2 then (m : Int) - 3 else (m : Int) + 9
  let doy : Int := (153 * mp + 2) / 5 + (d : Int) - 1
  let doe : Int := yoe * 365 + yoe / 4 - yoe / 100 + doy
  era * 146097 + doe - 719468

/-- Inverse of `daysFromCivil`: the civil date (y, m, d) of a day
number. -/
def civilFromDays (z0 : Int) : Int × Nat × Nat :=
  let z : Int := z0 + 719468
  let era : Int := (if z ≥ 0 then z else z - 146096) / 146097
  let doe : Int := z - era * 146097
  let yoe : Int := (doe - doe / 1460 + doe / 36524 - doe / 146096) / 365
  let y : Int := yoe + era * 400
  let doy : Int := doe - (365 * yoe + yoe / 4 - yoe / 100)
  let mp : Int := (5 * doy + 2) / 153
  let d : Int := doy - (153 * mp + 2) / 5 + 1
  let m : Int := if mp < 10 then mp + 3 else mp - 9
  ((if m ≤ 2 then y + 1 else y), m.toNat, d.toNat)

mutual

/-- A Python value as it appears in this program: JSON-decoded data
(`null`/bool/int/string/list/dict), plus the two extra cell kinds the
pipeline produces, `datetime` objects and pandas `NaN`.  Lists and
dictionaries are spine inductives (`JArr`, `JObj`) so that equality is
derivable. -/
inductive JVal where
  | null
  | bool (b : Bool)
  | int (n : Int)
  | str (s : String)
  | arr (l : JArr)
  | obj (kvs : JObj)
  | date (dt : PyDateTime)
  | nan
  deriving DecidableEq, Repr

/-- Spine of a Python list of `JVal`. -/
inductive JArr where
  | nil
  | cons (v : JVal) (tl : JArr)
  deriving DecidableEq, Repr

/-- Spine of a Python `dict` with string keys, in insertion order. -/
inductive JObj where
  | nil
  | cons (k : String) (v : JVal) (tl : JObj)
  deriving DecidableEq, Repr

end

/-- Chain view of a `JArr` as a Lean list. -/
def JArr.toList : JArr → List JVal
  | .nil => []
  | .cons v tl => v :: tl.toList

/-- Build a `JArr` from a Lean list. -/
def JArr.ofList : List JVal → JArr
  | [] => .nil
  | v :: tl => .cons v (JArr.ofList tl)

/-- `dict.get(k)`: first (only) binding of a key. -/
def JObj.get : JObj → String → Option JVal
  | .nil, _ => none
  | .cons k v tl, key => if k = key then some v else tl.get key

/-- `dict.get(k, d)`. -/
def JObj.getD (o : JObj) (key : String) (d : JVal) : JVal :=
  (o.get key).getD d

/-- `dict[k] = v`: overwrite in place when the key exists (Python
dictionaries keep the original insertion position), append otherwise. -/
def JObj.set : JObj → String → JVal → JObj
  | .nil, key, v => .cons key v .nil
  | .cons k w tl, key, v =>
      if k = key then .cons k v tl else .cons k w (tl.set key v)

/-- `list(d.keys())`: keys in insertion order. -/
def JObj.keys : JObj → List String
  | .nil => []
  | .cons k _ tl => k :: tl.keys

/-- Build a `JObj` from a key-value list (assumed duplicate-free, as
all literal payloads in this file are). -/
def JObj.ofList : List (String × JVal) → JObj
  | [] => .nil
  | (k, v) :: tl => .cons k v (JObj.ofList tl)

/-- Python truthiness of a value (`if key:`). -/
def JVal.truthy : JVal → Bool
  | .null => false
  | .bool b => b
  | .int n => n != 0
  | .str s => !(s = "")
  | .arr l => !(l = JArr.nil)
  | .obj kvs => !(kvs = JObj.nil)
  | .date _ => true
  | .nan => true

/-- Whether a value may be used as a dictionary key (hashable in
Python: lists and dicts are not). -/
def JVal.hashable : JVal → Bool
  | .arr _ => false
  | .obj _ => false
  | _ => true

/-- A row dictionary built by `_create_row_from_dict`: insertion-ordered
mapping from keys (normally strings, but a dynamic parameter key may be
any hashable Python value) to cell values. -/
abbrev Row := List (JVal × JVal)

/-- `row[k]` lookup. -/
def rowGet : Row → JVal → Option JVal
  | [], _ => none
  | (k, v) :: kvs, key => if k = key then some v else rowGet kvs key

/-- `row.get(k, d)`. -/
def rowGetD (r : Row) (key d : JVal) : JVal :=
  (rowGet r key).getD d

/-- `row[k] = v` with Python dictionary semantics. -/
def rowSet : Row → JVal → JVal → Row
  | [], key, v => [(key, v)]
  | (k, w) :: kvs, key, v =>
      if k = key then (k, v) :: kvs else (k, w) :: rowSet kvs key v

/-! ### JSON text: `json.loads` and a serializer used to build test pages -/

/-- Skip JSON whitespace. -/
def skipWs (cs : List Char) : List Char :=
  cs.dropWhile (fun c => c = ' ' || c = '\t' || c = '\n' || c = '\r')

/-- Consume an expected literal character sequence. -/
def dropLit : List Char → List Char → Option (List Char)
  | [], cs => some cs
  | _ :: _, [] => none
  | l :: ls, c :: cs => if c = l then dropLit ls cs else none

/-- Numeric value of a digit string. -/
def digitsToNat (cs : List Char) : Nat :=
  cs.foldl (fun a c => a * 10 + (c.toNat - 48)) 0

/-- Parse a JSON string body after the opening quote (escapes
supported: quote, backslash, slash, n, t, r). -/
def parseStrBody : Nat → List Char → Except Unit (String × List Char)
  | 0, _ => .error ()
  | _, [] => .error ()
  | fuel + 1, c :: cs =>
    if c = '"' then .ok ("", cs)
    else if c = '\\' then
      match cs with
      | [] => .error ()
      | e :: cs2 =>
        let dec : Except Unit Char :=
          if e = '"' then .ok '"'
          else if e = '\\' then .ok '\\'
          else if e = '/' then .ok '/'
          else if e = 'n' then .ok '\n'
          else if e = 't' then .ok '\t'
          else if e = 'r' then .ok '\r'
          else .error ()
        match dec with
        | .error _ => .error ()
        | .ok d =>
          match parseStrBody fuel cs2 with
          | .ok (s, rest) => .ok (String.mk (d :: s.data), rest)
          | .error _ => .error ()
    else
      match parseStrBody fuel cs with
      | .ok (s, rest) => .ok (String.mk (c :: s.data), rest)
      | .error _ => .error ()

/-- Parse a JSON integer (floats are outside this model's subset). -/
def parseNum (cs : List Char) : Except Unit (JVal × List Char) :=
  let p := match cs with
    | '-' :: tl => (true, tl)
    | _ => (false, cs)
  let ds := p.2.takeWhile Char.isDigit
  let rest := p.2.dropWhile Char.isDigit
  if ds = [] then .error ()
  else match rest with
    | '.' :: _ => .error ()
    | 'e' :: _ => .error ()
    | 'E' :: _ => .error ()
    | _ =>
      .ok (.int (if p.1 then -(digitsToNat ds : Int) else (digitsToNat ds : Int)), rest)

mutual

/-- Parse one JSON value (fuel-bounded recursive descent). -/
def parseVal : Nat → List Char → Except Unit (JVal × List Char)
  | 0, _ => .error ()
  | fuel + 1, cs0 =>
    match skipWs cs0 with
    | [] => .error ()
    | c :: cs1 =>
      if c = '"' then
        match parseStrBody (cs1.length + 1) cs1 with
        | .ok (s, rest) => .ok (.str s, rest)
        | .error _ => .error ()
      else if c = '\x7b' then
        match skipWs cs1 with
        | '\x7d' :: rest => .ok (.obj .nil, rest)
        | cs2 =>
          match parseMembers fuel cs2 .nil with
          | .ok (o, rest) => .ok (.obj o, rest)
          | .error _ => .error ()
      else if c = '[' then
        match skipWs cs1 with
        | ']' :: rest => .ok (.arr .nil, rest)
        | cs2 =>
          match parseElems fuel cs2 with
          | .ok (l, rest) => .ok (.arr l, rest)
          | .error _ => .error ()
      else if c = 'n' then
        match dropLit ['u', 'l', 'l'] cs1 with
        | some rest => .ok (.null, rest)
        | none => .error ()
      else if c = 't' then
        match dropLit ['r', 'u', 'e'] cs1 with
        | some rest => .ok (.bool true, rest)
        | none => .error ()
      else if c = 'f' then
        match dropLit ['a', 'l', 's', 'e'] cs1 with
        | some rest => .ok (.bool false, rest)
        | none => .error ()
      else parseNum (c :: cs1)

/-- Parse the members of a JSON object after the opening brace
(building with `JObj.set`, i.e. Python dictionary update semantics). -/
def parseMembers : Nat → List Char → JObj → Except Unit (JObj × List Char)
  | 0, _, _ => .error ()
  | fuel + 1, cs, acc =>
    match skipWs cs with
    | '"' :: cs1 =>
      match parseStrBody (cs1.length + 1) cs1 with
      | .error _ => .error ()
      | .ok (k, rest) =>
        match skipWs rest with
        | ':' :: rest2 =>
          match parseVal fuel rest2 with
          | .error _ => .error ()
          | .ok (v, rest3) =>
            match skipWs rest3 with
            | ',' :: rest4 => parseMembers fuel rest4 (acc.set k v)
            | '\x7d' :: rest4 => .ok (acc.set k v, rest4)
            | _ => .error ()
        | _ => .error ()
    | _ => .error ()

/-- Parse the elements of a JSON array after the opening bracket. -/
def parseElems : Nat → List Char → Except Unit (JArr × List Char)
  | 0, _ => .error ()
  | fuel + 1, cs =>
    match parseVal fuel cs with
    | .error _ => .error ()
    | .ok (v, rest) =>
      match skipWs rest with
      | ',' :: rest2 =>
        match parseElems fuel rest2 with
        | .ok (tl, rest3) => .ok (.cons v tl, rest3)
        | .error _ => .error ()
      | ']' :: rest2 => .ok (.cons v .nil, rest2)
      | _ => .error ()

end

/-- `json.loads`: parse a complete JSON document (subset: no floats,
no unicode escapes), requiring only trailing whitespace after it. -/
def pyJsonLoads (s : String) : Except Unit JVal :=
  match parseVal (s.length + 1) s.data with
  | .error _ => .error ()
  | .ok (v, rest) => if skipWs rest = [] then .ok v else .error ()

/-- Escape a string for JSON output. -/
def jsonEscape (s : String) : String :=
  String.mk (s.data.foldr
    (fun c acc =>
      if c = '"' then '\\' :: '"' :: acc
      else if c = '\\' then '\\' :: '\\' :: acc
      else c :: acc) [])

mutual

/-- Serialize a `JVal` to JSON text (used to build concrete page
payloads fed back through `pyJsonLoads`). -/
def jserial : JVal → String
  | .null => "null"
  | .bool true => "true"
  | .bool false => "false"
  | .int n => toString n
  | .str s => "\"" ++ jsonEscape s ++ "\""
  | .arr l => "[" ++ jserialArr l ++ "]"
  | .obj o => "\x7b" ++ jserialObj o ++ "\x7d"
  | .date _ => "null"
  | .nan => "null"

/-- Serialize array elements. -/
def jserialArr : JArr → String
  | .nil => ""
  | .cons v .nil => jserial v
  | .cons v tl => jserial v ++ "," ++ jserialArr tl

/-- Serialize object members. -/
def jserialObj : JObj → String
  | .nil => ""
  | .cons k v .nil => "\"" ++ jsonEscape k ++ "\":" ++ jserial v
  | .cons k v tl => "\"" ++ jsonEscape k ++ "\":" ++ jserial v ++ "," ++ jserialObj tl

end

/-! ### Dates: `strptime("%Y-%m-%d")` and `strftime("%Y-%m-%d")` -/

/-- Gregorian leap year. -/
def isLeap (y : Nat) : Bool := (y % 4 = 0 && y % 100 ≠ 0) || y % 400 = 0

/-- Length of a month. -/
def daysInMonth (y m : Nat) : Nat :=
  if m = 2 then (if isLeap y then 29 else 28)
  else if m = 4 || m = 6 || m = 9 || m = 11 then 30 else 31

/-- `strptime` month directive `%m` (pattern `1[0-2]|0[1-9]|[1-9]`):
two digits when in range, else one digit 1-9. -/
def parseMonthPart : List Char → Option (Nat × List Char)
  | [] => none
  | [d1] => if '1' ≤ d1 && d1 ≤ '9' then some (digitsToNat [d1], []) else none
  | d1 :: d2 :: rest =>
    if d1.isDigit && d2.isDigit && (d1 = '0' || d1 = '1')
        && 1 ≤ digitsToNat [d1, d2] && digitsToNat [d1, d2] ≤ 12 then
      some (digitsToNat [d1, d2], rest)
    else if '1' ≤ d1 && d1 ≤ '9' then some (digitsToNat [d1], d2 :: rest)
    else none

/-- `strptime` day directive `%d` (pattern `3[01]|[12]\d|0[1-9]|[1-9]`). -/
def parseDayPart : List Char → Option (Nat × List Char)
  | [] => none
  | [d1] => if '1' ≤ d1 && d1 ≤ '9' then some (digitsToNat [d1], []) else none
  | d1 :: d2 :: rest =>
    if d1.isDigit && d2.isDigit && 1 ≤ digitsToNat [d1, d2]
        && digitsToNat [d1, d2] ≤ 31 then
      some (digitsToNat [d1, d2], rest)
    else if '1' ≤ d1 && d1 ≤ '9' then some (digitsToNat [d1], d2 :: rest)
    else none

/-- Full `%Y-%m-%d` parse (year is exactly four digits; the whole
string must be consumed) followed by the `datetime` constructor's
range validation. -/
def parseYmdAll (cs : List Char) : Option (Nat × Nat × Nat) :=
  match cs with
  | c1 :: c2 :: c3 :: c4 :: '-' :: rest1 =>
    if c1.isDigit && c2.isDigit && c3.isDigit && c4.isDigit then
      match parseMonthPart rest1 with
      | some (m, '-' :: rest2) =>
        match parseDayPart rest2 with
        | some (d, []) =>
          let y := digitsToNat [c1, c2, c3, c4]
          if 1 ≤ y && 1 ≤ d && d ≤ daysInMonth y m then some (y, m, d) else none
        | _ => none
      | _ => none
    else none
  | _ => none

/-- `datetime.strptime(s, "%Y-%m-%d")` as a midnight `PyDateTime`. -/
def strptimeYmd (s : String) : Option PyDateTime :=
  (parseYmdAll s.data).map (fun t => ⟨daysFromCivil (t.1 : Int) t.2.1 t.2.2, 0⟩)

/-- Zero-pad to two digits. -/
def pad2 (n : Nat) : String := if n < 10 then "0" ++ toString n else toString n

/-- Zero-pad a (non-negative) year to four digits. -/
def pad4 (y : Int) : String :=
  let n := y.toNat
  if n < 10 then "000" ++ toString n
  else if n < 100 then "00" ++ toString n
  else if n < 1000 then "0" ++ toString n
  else toString n

/-- `dt.strftime("%Y-%m-%d")`. -/
def fmtYmd (dt : PyDateTime) : String :=
  let c := civilFromDays dt.days
  pad4 c.1 ++ "-" ++ pad2 c.2.1 ++ "-" ++ pad2 c.2.2

/-! ### `_create_row_from_dict`, `_create_df_from_row` and stop-date helpers -/

/-- The Python iteration `for param in parameters`: a list yields its
elements; an empty dict or empty string yields nothing; every other
case ends in an exception inside the loop header or body
(`TypeError` on non-iterables, `AttributeError` on `param.get` for
string keys/characters). -/
def paramsSource : JVal → Option (List JVal)
  | .arr l => some l.toList
  | .obj .nil => some []
  | .str "" => some []
  | _ => none

/-- The dynamic-parameters loop of `_create_row_from_dict`: for each
parameter dict, add `row[key] = value` when `key` is truthy; a
non-dict parameter or an unhashable key raises (whole listing fails). -/
def addParams : Row → List JVal → Option Row
  | row, [] => some row
  | row, p :: ps =>
    match p with
    | .obj po =>
      let key := po.getD "key" .null
      let value := po.getD "value" .null
      if key.truthy then
        if key.hashable then addParams (rowSet row key value) ps
        else none
      else addParams row ps
    | _ => none

/-- `OtoMotoETL._create_row_from_dict` (strategy.py:133-173): flatten a
listing node into a row; `none` models the `except` branch that logs
and returns the empty dict `{}` (which the caller then fails to unpack
into a pair).  `now` is the wall clock at the `datetime.now()` call. -/
def createRowFromDict (now : PyDateTime) (input : JVal) : Option (Row × PyDateTime) :=
  match input with
  | .obj ikvs =>
    match ikvs.getD "node" (.obj .nil) with
    | .obj node =>
      let row1 := rowSet [] (.str "scrape_date") (.str (fmtYmd now))
      match node.getD "createdAt" (.str "1900-01-01") with
      | .str cs =>
        match strptimeYmd (String.mk (cs.data.take 10)) with
        | none => none
        | some cd =>
          let row2 := rowSet row1 (.str "created_date") (.date cd)
          let row3 := rowSet row2 (.str "title") (node.getD "title" (.str ""))
          let row4 := rowSet row3 (.str "short_description")
            (node.getD "shortDescription" (.str ""))
          match node.getD "price" (.obj .nil) with
          | .obj priceO =>
            match priceO.getD "amount" (.obj .nil) with
            | .obj amountO =>
              let row5 := rowSet row4 (.str "price") (amountO.getD "units" (.int 0))
              let row6 := rowSet row5 (.str "currency")
                (amountO.getD "currencyCode" (.str "UNKNOWN"))
              let row7 := rowSet row6 (.str "cepik_verified")
                (node.getD "cepikVerified" (.bool false))
              match paramsSource (node.getD "parameters" (.arr .nil)) with
              | none => none
              | some ps =>
                match addParams row7 ps with
                | none => none
                | some row8 => some (row8, cd)
            | _ => none
          | _ => none
      | _ => none
    | _ => none
  | _ => none

/-- The accumulated table: a list of row dictionaries in insertion
order (one `pd.concat` per appended row). -/
abbrev Df := List Row

/-- `OtoMotoETL._create_df_from_row` (strategy.py:175-186). -/
def createDfFromRow : Option Df → Row → Df
  | none, row => [row]
  | some df, row => df ++ [row]

/-- `OtoMotoETL._is_stop_date_greater_than_creation_date`
(strategy.py:199-200). -/
def isStopDateGreaterThanCreationDate (creationDate stopDate : PyDateTime) : Bool :=
  dtGT stopDate creationDate

/-- `OtoMotoETL._n_days_ago` (strategy.py:202-206): asserts
`n_days > 0`, then start-of-day of `now - timedelta(days=n_days)`. -/
def nDaysAgo (now : PyDateTime) (nDays : Int) : Except PyErr PyDateTime :=
  if nDays > 0 then .ok ⟨now.days - nDays, 0⟩ else .error .assertionError

/-- `OtoMotoETL._get_url` (strategy.py:49-72). -/
def getUrl (brand model : String) (page : Nat) : String :=
  let baseUrl := "https://www.otomoto.pl/osobowe"
  if brand ≠ "" && model ≠ "" then
    baseUrl ++ "/" ++ brand ++ "/" ++ model
      ++ "?search%5Border%5D=created_at_first%3Adesc&page=" ++ toString page
  else if brand ≠ "" then
    baseUrl ++ "/" ++ brand
      ++ "?search%5Border%5D=created_at_first%3Adesc&page=" ++ toString page
  else if model ≠ "" then
    baseUrl ++ "/" ++ model
      ++ "?search%5Border%5D=created_at_first%3Adesc&page=" ++ toString page
  else baseUrl ++ "?search%5Border%5D=created_at_first%3Adesc&page=" ++ toString page

/-! ### The extraction engine (`OtoMotoETL.extarct`, strategy.py:250-331) -/

/-- Parsed markup as far as the engine inspects it: the element with
id `__NEXT_DATA__`, when present, with its text content. -/
structure Soup where
  nextData : Option String
  deriving DecidableEq, Repr

/-- Result of `_get_soup`: the request can raise, return a non-200
status (the function then returns `None`), or deliver markup. -/
inductive FetchOutcome where
  | raise
  | non200
  | ok (soup : Soup)
  deriving DecidableEq, Repr

/-- External collaborators of one run: the wall clock, the user-agent
generator (`_get_headers`) and the HTTP transport (`_get_soup`),
keyed by headers and url. -/
structure Env where
  now : PyDateTime
  genHeaders : Except PyErr String
  fetch : String → String → FetchOutcome

/-- The `kwargs` of `extarct`. -/
structure Args where
  brand : String
  model : String
  days_ago : Int
  delay_scraping : Bool
  page_num_start : Nat
  page_num_stop : Nat
  headers : String

/-- The chain `json_object.get('props', {}).get('pageProps',
{}).get('urqlState', {})`; `none` models an `AttributeError` from
calling `.get` on a non-dict. -/
def urqlStateOf (jo : JVal) : Option JVal :=
  match jo with
  | .obj j1 =>
    match j1.getD "props" (.obj .nil) with
    | .obj j2 =>
      match j2.getD "pageProps" (.obj .nil) with
      | .obj j3 => some (j3.getD "urqlState" (.obj .nil))
      | _ => none
    | _ => none
  | _ => none

/-- How `_get_data_with_key` terminates, by the exception class its
caller can observe: `keyErr` is the re-raised `KeyError` (covering the
caught `KeyError`/`TypeError` cases), `valErr` the re-raised
`ValueError` on malformed JSON, `otherErr` an exception class the
function's handlers do not list (`AttributeError`). -/
inductive DKRes where
  | ok (edges : JVal)
  | keyErr
  | valErr
  | otherErr
  deriving DecidableEq, Repr

/-- `OtoMotoETL._get_data_with_key` (strategy.py:108-131). -/
def getDataWithKey (jo : JVal) (key : String) : DKRes :=
  match urqlStateOf jo with
  | none => .otherErr
  | some urql =>
    match urql with
    | .obj ukvs =>
      match ukvs.get key with
      | none => .keyErr
      | some entry =>
        match entry with
        | .obj ekvs =>
          match ekvs.get "data" with
          | none => .keyErr
          | some dataV =>
            match dataV with
            | .str s =>
              match pyJsonLoads s with
              | .error _ => .valErr
              | .ok dj =>
                match dj with
                | .obj djkvs =>
                  match djkvs.getD "advertSearch" (.obj .nil) with
                  | .obj akvs => .ok (akvs.getD "edges" (.arr .nil))
                  | _ => .otherErr
                | _ => .otherErr
            | _ => .keyErr
        | _ => .keyErr
    | _ => .keyErr

/-- The inner `try` of `extarct` (strategy.py:309-315): try the last
key, fall back to the first key only on `KeyError`, and with a bare
`except` keep `final_data` as it was (unbound on the first page, stale
from an earlier page otherwise).  `none` models an exception escaping
to the page-level handler (`ValueError`/`AttributeError` from the last
key, which `except KeyError` does not catch). -/
def resolveFinalData (jo : JVal) (lastKey firstKey : String) (fd : Option JVal) :
    Option (Option JVal) :=
  match getDataWithKey jo lastKey with
  | .ok v => some (some v)
  | .keyErr =>
    match getDataWithKey jo firstKey with
    | .ok v => some (some v)
    | _ => some fd
  | .valErr => none
  | .otherErr => none

/-- Python iteration `for input_data in final_data`: lists yield
elements, strings characters, dicts keys; anything else raises
`TypeError`. -/
def pyIter : JVal → Option (List JVal)
  | .arr l => some l.toList
  | .str s => some (s.data.map (fun c => .str (String.mk [c])))
  | .obj o => some (o.keys.map (fun k => .str k))
  | _ => none

/-- Outcome of the listing loop (strategy.py:318-327) on one page. -/
inductive LOut where
  | done (df : Option Df)
  | forced (df : Option Df)
  | exc (df : Option Df)
  deriving DecidableEq, Repr

/-- The listing loop of `extarct` (strategy.py:318-327): normalize each
listing, stop with `forced_stop` before appending the first listing
whose creation date lies strictly before the stop date, append
otherwise; a failed unpacking of `_create_row_from_dict`'s error
value `{}` raises out of the loop with the rows appended so far. -/
def processListings (now : PyDateTime) (stopDate : Option PyDateTime) :
    Option Df → List JVal → LOut
  | df, [] => .done df
  | df, x :: xs =>
    match createRowFromDict now x with
    | none => .exc df
    | some rc =>
      match stopDate with
      | some sd =>
        if isStopDateGreaterThanCreationDate rc.2 sd then .forced df
        else processListings now stopDate (some (createDfFromRow df rc.1)) xs
      | none => processListings now stopDate (some (createDfFromRow df rc.1)) xs

/-- How one iteration of the page loop ends: fall through to the next
page, the bare `return` on a missing `__NEXT_DATA__` element, the
forced-stop `return df, forced_stop`, or an exception absorbed by the
page-level `except` (carrying the updated accumulator state). -/
inductive BodyRes where
  | next (df : Option Df) (fd : Option JVal)
  | retNone
  | retForced (df : Option Df)
  | exc (df : Option Df) (fd : Option JVal)
  deriving DecidableEq, Repr

/-- The body of the page loop of `extarct` (strategy.py:285-327). -/
def pageBody (env : Env) (brand model : String) (stopDate : Option PyDateTime)
    (headers : String) (df : Option Df) (fd : Option JVal) (page : Nat) : BodyRes :=
  match env.fetch headers (getUrl brand model page) with
  | .raise => .exc df fd
  | .non200 => .exc df fd
  | .ok soup =>
    match soup.nextData with
    | none => .retNone
    | some txt =>
      match pyJsonLoads txt with
      | .error _ => .exc df fd
      | .ok jo =>
        match urqlStateOf jo with
        | none => .exc df fd
        | some (.obj ukvs) =>
          match ukvs.keys with
          | [] => .exc df fd
          | k :: ks =>
            match resolveFinalData jo ((k :: ks).getLastD "") k fd with
            | none => .exc df fd
            | some none => .exc df fd
            | some (some v) =>
              match pyIter v with
              | none => .exc df (some v)
              | some l =>
                match processListings env.now stopDate df l with
                | .done df2 => .next df2 (some v)
                | .forced df2 => .retForced df2
                | .exc df2 => .exc df2 (some v)
        | some _ => .exc df fd

/-- What `extarct` returns when it does not raise: Python `None` (the
bare `return`) or the pair `(df, forced_stop)`. -/
inductive ExtractRet where
  | noneRet
  | pair (df : Option Df) (forced : Bool)
  deriving DecidableEq, Repr

/-- The page loop of `extarct` (strategy.py:284-331), carrying the
accumulator `df` and the (possibly unbound) `final_data` binding. -/
def loopPages (env : Env) (brand model : String) (stopDate : Option PyDateTime)
    (headers : String) : Option Df → Option JVal → List Nat → ExtractRet
  | df, _, [] => .pair df false
  | df, fd, p :: ps =>
    match pageBody env brand model stopDate headers df fd p with
    | .next df2 fd2 => loopPages env brand model stopDate headers df2 fd2 ps
    | .retNone => .noneRet
    | .retForced df2 => .pair df2 true
    | .exc df2 fd2 => loopPages env brand model stopDate headers df2 fd2 ps

/-- `range(page_num_start, page_num_stop + 1)` (both bounds
inclusive). -/
def pageRange (start stop : Nat) : List Nat := List.range' start (stop + 1 - start)

/-- `OtoMotoETL.extarct` (strategy.py:250-331): stop-date decision
(`days_ago >= 0` enables bounded mode via `_n_days_ago`), header
regeneration discarding the supplied headers, the initial fetch (whose
result the loop never uses), then the page loop. -/
def extarct (env : Env) (a : Args) : Except PyErr ExtractRet :=
  let _headersSupplied := a.headers
  let stopRes : Except PyErr (Option PyDateTime) :=
    if a.days_ago ≥ 0 then (nDaysAgo env.now a.days_ago).map some else .ok none
  match stopRes with
  | .error e => .error e
  | .ok stopDate =>
    match env.genHeaders with
    | .error e => .error e
    | .ok headers =>
      match env.fetch headers (getUrl a.brand a.model 1) with
      | .raise => .error .requestError
      | _ =>
        .ok (loopPages env a.brand a.model stopDate headers none none
              (pageRange a.page_num_start a.page_num_stop))

/-! ### `_find_page_num` (strategy.py:188-197): the regex
`Liczba ogłoszeń:\s*<!--\s*-->\s*<b>([\d\s]+)</b>` over the index
markup, then `int(group.replace(" ", ""))` and `ceil(ad_num/32)`. -/

/-- The literal label part of the pattern. -/
def labelChars : List Char := "Liczba ogłoszeń:".data

/-- Python regex `\s` (the whitespace classes occurring in practice). -/
def isPySpace (c : Char) : Bool :=
  c = ' ' || c = '\t' || c = '\n' || c = '\r' || c = '\x0b' || c = '\x0c' || c = '\u00A0'

/-- The character class `[\d\s]`. -/
def isDigitSpace (c : Char) : Bool := c.isDigit || isPySpace c

/-- Match `\s*<!--\s*-->\s*<b>([\d\s]+)</b>` at the current position,
returning the capture.  The literals all begin with characters outside
`\s` and `[\d\s]`, so the maximal-munch runs below are exactly the
backtracking regex semantics. -/
def matchTailPat (cs : List Char) : Option (List Char) :=
  match dropLit "<!--".data (cs.dropWhile isPySpace) with
  | none => none
  | some cs2 =>
    match dropLit "-->".data (cs2.dropWhile isPySpace) with
    | none => none
    | some cs4 =>
      match dropLit "<b>".data (cs4.dropWhile isPySpace) with
      | none => none
      | some cs6 =>
        let grp := cs6.takeWhile isDigitSpace
        if grp = [] then none
        else
          match dropLit "</b>".data (cs6.dropWhile isDigitSpace) with
          | none => none
          | some _ => some grp

/-- `re.search`: try the pattern at each successive position, taking
the leftmost match. -/
def scanPat : List Char → Option (List Char)
  | [] => none
  | c :: cs =>
    match (dropLit labelChars (c :: cs)).bind matchTailPat with
    | some g => some g
    | none => scanPat cs

/-- Strip Python whitespace from both ends. -/
def stripPySpace (cs : List Char) : List Char :=
  ((cs.dropWhile isPySpace).reverse.dropWhile isPySpace).reverse

/-- Python `int(str)`: strip whitespace, optional sign, digits. -/
def pyInt (cs : List Char) : Option Int :=
  let t := stripPySpace cs
  let neg := t.headD ' ' = '-'
  let ds := if neg || t.headD ' ' = '+' then t.tail else t
  if ds ≠ [] && ds.all Char.isDigit then
    some (if neg then -(digitsToNat ds : Int) else (digitsToNat ds : Int))
  else none

/-- `OtoMotoETL._find_page_num`: search the pattern, remove the plain
spaces from the capture, convert with `int`, and take
`ceil(ad_num / 32)` (32 ads per page).  Both a missing pattern and a
capture `int` rejects raise `ValueError`. -/
def findPageNum (text : String) : Except PyErr Int :=
  match scanPat text.data with
  | none => .error .valueError
  | some grp =>
    match pyInt (grp.filter (fun c => c ≠ ' ')) with
    | none => .error .valueError
    | some adNum => .ok ((adNum + 31) / 32)

/-- Canonical index markup advertising a given count, used to state
the page-count property: the label, one space, the comment marker and
the bold count element. -/
def mkAdCountMarkup (ds : List Char) : String :=
  String.mk (labelChars ++ " <!-- --><b>".data ++ ds ++ "</b>".data)

/-! ### The transform stage (`OtoMotoETL.transform`, strategy.py:333-381)
with pandas column semantics over the row-dictionary table. -/

/-- The table's columns: union of row keys in first-appearance order
(as produced by the row-wise `pd.concat`). -/
def dfCols (df : Df) : List JVal :=
  df.foldl (fun acc r => acc ++ (r.map Prod.fst).filter (fun k => decide (¬ k ∈ acc))) []

/-- `df[c]`: the column as a series (cells missing from a row are
`NaN`), `KeyError` when the label is not a column. -/
def colGet (df : Df) (c : JVal) : Except PyErr (List JVal) :=
  if c ∈ dfCols df then .ok (df.map (fun r => rowGetD r c .nan)) else .error .keyError

/-- `df[c] = series` (the series has one cell per row). -/
def colSet (df : Df) (c : JVal) (vals : List JVal) : Df :=
  List.zipWith (fun r v => rowSet r c v) df vals

/-- `df[c] = scalar`. -/
def colSetConst (df : Df) (c : JVal) (v : JVal) : Df :=
  df.map (fun r => rowSet r c v)

/-- Replace every occurrence of a (non-empty) pattern, left to right. -/
def replaceAllF : Nat → List Char → List Char → List Char → List Char
  | 0, cs, _, _ => cs
  | _ + 1, [], _, _ => []
  | fuel + 1, c :: cs2, pat, repl =>
    match dropLit pat (c :: cs2) with
    | some rest => repl ++ replaceAllF fuel rest pat repl
    | none => c :: replaceAllF fuel cs2 pat repl

/-- `str.replace(pat, repl)` on a Python string. -/
def replaceAll (cs pat repl : List Char) : List Char :=
  replaceAllF cs.length cs pat repl

/-- `series.str.replace(pat, repl)`: acts on string cells; any
non-string cell (including `NaN`) becomes `NaN`. -/
def seriesStrReplace (vals : List JVal) (pat repl : List Char) : List JVal :=
  vals.map (fun v =>
    match v with
    | .str s => .str (String.mk (replaceAll s.data pat repl))
    | _ => .nan)

/-- `series.fillna(-1)`: missing cells (`NaN`/`None`) become -1. -/
def seriesFillNeg1 (vals : List JVal) : List JVal :=
  vals.map (fun v =>
    match v with
    | .nan => .int (-1)
    | .null => .int (-1)
    | w => w)

/-- `astype('int')` on one cell. -/
def castInt (v : JVal) : Except PyErr JVal :=
  match v with
  | .int n => .ok (.int n)
  | .bool b => .ok (.int (if b then 1 else 0))
  | .str s =>
    match pyInt s.data with
    | some n => .ok (.int n)
    | none => .error .valueError
  | _ => .error .valueError

/-- `astype('bool')` on one cell (Python truthiness; `bool(nan)` is
true). -/
def castBool (v : JVal) : JVal := .bool v.truthy

/-- `pd.to_datetime` on one cell of this pipeline's data. -/
def castDatetime (v : JVal) : Except PyErr JVal :=
  match v with
  | .str s =>
    match strptimeYmd s with
    | some dt => .ok (.date dt)
    | none => .error .valueError
  | .date dt => .ok (.date dt)
  | _ => .error .valueError

/-- Apply a fallible cell function across a series. -/
def mapExcept (f : JVal → Except PyErr JVal) : List JVal → Except PyErr (List JVal)
  | [] => .ok []
  | v :: vs =>
    match f v with
    | .error e => .error e
    | .ok w =>
      match mapExcept f vs with
      | .error e => .error e
      | .ok ws => .ok (w :: ws)

/-- Read a column, transform it cell-wise, write it back. -/
def castColWith (df : Df) (c : JVal) (f : JVal → Except PyErr JVal) : Except PyErr Df :=
  match colGet df c with
  | .error e => .error e
  | .ok vals =>
    match mapExcept f vals with
    | .error e => .error e
    | .ok vals2 => .ok (colSet df c vals2)

/-- `df[cols] = df[cols].fillna(-1)` column by column (a missing
column raises `KeyError`, as the sub-frame selection does). -/
def fillNumericCols : Df → List JVal → Except PyErr Df
  | df, [] => .ok df
  | df, c :: cs =>
    match colGet df c with
    | .error e => .error e
    | .ok vals => fillNumericCols (colSet df c (seriesFillNeg1 vals)) cs

/-- The `col_dtype` integer columns, in dictionary order minus the
boolean one. -/
def intCastCols : List JVal :=
  [.str "price", .str "mileage", .str "engine_capacity", .str "engine_power", .str "year"]

/-- `astype('int')` across a column list. -/
def castIntCols : Df → List JVal → Except PyErr Df
  | df, [] => .ok df
  | df, c :: cs =>
    match castColWith df c castInt with
    | .error e => .error e
    | .ok df2 => castIntCols df2 cs

/-- The fillna target columns (strategy.py:355). -/
def numericFillCols : List JVal :=
  [.str "price", .str "mileage", .str "engine_capacity", .str "engine_power", .str "year"]

/-- `init_expected_columns` (strategy.py:362-365). -/
def initExpectedColumns : List JVal :=
  [.str "scrape_date", .str "created_date", .str "title", .str "short_description",
   .str "price", .str "currency", .str "cepik_verified", .str "make", .str "fuel_type",
   .str "gearbox", .str "country_origin", .str "mileage", .str "engine_capacity",
   .str "engine_power", .str "model", .str "year", .str "version"]

/-- `OtoMotoETL._validate_dataframe` (strategy.py:221-248): missing
columns, extra columns, order flag. -/
def validateDataframe (df : Df) (expected : List JVal) :
    List JVal × List JVal × Bool :=
  let actual := dfCols df
  (expected.filter (fun c => decide (¬ c ∈ actual)),
   actual.filter (fun c => decide (¬ c ∈ expected)),
   decide (actual = expected))

/-- `for col in missing: df[col] = np.nan`. -/
def addNanCols : Df → List JVal → Df
  | df, [] => df
  | df, c :: cs => addNanCols (colSetConst df c .nan) cs

/-- `df[cols]`: column projection in the given order; a missing label
raises `KeyError`. -/
def projectCols (df : Df) (cols : List JVal) : Except PyErr Df :=
  if cols.all (fun c => decide (c ∈ dfCols df)) then
    .ok (df.map (fun r => cols.map (fun c => (c, rowGetD r c .nan))))
  else .error .keyError

/-- `df.rename({'make': 'brand'}, axis=1)`. -/
def renameKey (df : Df) (oldK newK : JVal) : Df :=
  df.map (fun r => r.map (fun kv => if kv.1 = oldK then (newK, kv.2) else kv))

/-- `df['scrape_date'].dt.year - df['year']` cell-wise. -/
def seriesYearMinus : List JVal → List JVal → Except PyErr (List JVal)
  | [], [] => .ok []
  | .date dt :: ss, .int n :: ys =>
    match seriesYearMinus ss ys with
    | .error e => .error e
    | .ok rest => .ok (.int ((civilFromDays dt.days).1 - n) :: rest)
  | _, _ => .error .typeError

/-- `OtoMotoETL.transform` (strategy.py:333-381). -/
def transform (df0 : Df) : Except PyErr Df :=
  match colGet df0 (.str "engine_capacity") with
  | .error e => .error e
  | .ok ec0 =>
    let df1 := colSet df0 (.str "engine_capacity") (seriesStrReplace ec0 [' '] [])
    match colGet df1 (.str "engine_capacity") with
    | .error e => .error e
    | .ok ec1 =>
      let df2 := colSet df1 (.str "engine_capacity")
        (seriesStrReplace ec1 [',', '0', '0'] [])
      match fillNumericCols df2 numericFillCols with
      | .error e => .error e
      | .ok df3 =>
        match castIntCols df3 intCastCols with
        | .error e => .error e
        | .ok df4 =>
          match castColWith df4 (.str "cepik_verified")
              (fun v => .ok (castBool v)) with
          | .error e => .error e
          | .ok df5 =>
            match castColWith df5 (.str "scrape_date") castDatetime with
            | .error e => .error e
            | .ok df6 =>
              match castColWith df6 (.str "created_date") castDatetime with
              | .error e => .error e
              | .ok df7 =>
                let vinfo := validateDataframe df7 initExpectedColumns
                let df8 :=
                  if vinfo.1.length = 0 then addNanCols df7 vinfo.1 else df7
                match (if vinfo.2.2 then .ok df8
                       else projectCols df8 initExpectedColumns :
                       Except PyErr Df) with
                | .error e => .error e
                | .ok df9 =>
                  let df10 := renameKey df9 (.str "make") (.str "brand")
                  match colGet df10 (.str "scrape_date") with
                  | .error e => .error e
                  | .ok scr =>
                    match colGet df10 (.str "year") with
                    | .error e => .error e
                    | .ok yrs =>
                      match seriesYearMinus scr yrs with
                      | .error e => .error e
                      | .ok ages => .ok (colSet df10 (.str "car_age") ages)

/-! ### Views and concrete runs used by the theorems below -/

/-- The rows of a possibly not-yet-created table. -/
def rowsOf (od : Option Df) : Df := od.getD []

/-- Append a list of rows through `_create_df_from_row`. -/
def dfAppendRows (df : Option Df) (rows : List Row) : Option Df :=
  rows.foldl (fun d r => some (createDfFromRow d r)) df

/-- The accumulator carried by a listing-loop outcome. -/
def loutDf : LOut → Option Df
  | .done d => d
  | .forced d => d
  | .exc d => d

/-- Wall clock of the concrete runs: 2024-01-15, 01:00:00. -/
def nowW : PyDateTime := ⟨19737, 3600⟩

/-- Stop date of the concrete bounded runs: start of 2024-01-10. -/
def sdW : PyDateTime := ⟨19732, 0⟩

/-- A listing node carrying only a creation date. -/
def nodeW (cd : String) : JVal :=
  .obj (.cons "node" (.obj (.cons "createdAt" (.str cd) .nil)) .nil)

/-- The row `_create_row_from_dict` builds from `nodeW` under `nowW`. -/
def baseRowW (cd : PyDateTime) : Row :=
  [(.str "scrape_date", .str "2024-01-15"), (.str "created_date", .date cd),
   (.str "title", .str ""), (.str "short_description", .str ""),
   (.str "price", .int 0), (.str "currency", .str "UNKNOWN"),
   (.str "cepik_verified", .bool false)]

/-- Rows-with-dates of the two listings dated 2024-01-12 / 2024-01-09. -/
def rcsW : List (Row × PyDateTime) :=
  [(baseRowW ⟨19734, 0⟩, ⟨19734, 0⟩), (baseRowW ⟨19731, 0⟩, ⟨19731, 0⟩)]

/-- JSON text of an `advertSearch.edges` data blob. -/
def edgesTxt (listings : List JVal) : String :=
  jserial (.obj (.cons "advertSearch"
    (.obj (.cons "edges" (.arr (JArr.ofList listings)) .nil)) .nil))

/-- A `urqlState` dictionary from (key, data-text) pairs. -/
def urqlOf (entries : List (String × String)) : JObj :=
  JObj.ofList (entries.map fun e => (e.1, JVal.obj (.cons "data" (.str e.2) .nil)))

/-- A full embedded-state payload from (key, data-text) pairs. -/
def pagePayload (entries : List (String × String)) : JVal :=
  .obj (.cons "props" (.obj (.cons "pageProps"
    (.obj (.cons "urqlState" (.obj (urqlOf entries)) .nil)) .nil)) .nil)

/-- Serialized page text from (key, data-text) pairs. -/
def pageTxt (entries : List (String × String)) : String :=
  jserial (pagePayload entries)

/-- `kwargs` of the concrete runs (no brand/model filter). -/
def argsW (d : Int) (a b : Nat) : Args := ⟨"", "", d, false, a, b, "caller-headers"⟩

/-- Environment whose transport always raises. -/
def envRaise : Env := ⟨nowW, .ok "UA", fun _ _ => .raise⟩

/-- Environment whose transport always returns a non-200 status. -/
def envT : Env := ⟨nowW, .ok "UA", fun _ _ => .non200⟩

/-- Three-page environment: page 1 parses to one listing, page 2 lacks
the `__NEXT_DATA__` element, page 3 parses to one listing again. -/
def envC2 : Env :=
  ⟨nowW, .ok "UA", fun _ url =>
    if url = getUrl "" "" 1 then .ok ⟨some (pageTxt [("k1", edgesTxt [nodeW "2024-01-12"])])⟩
    else if url = getUrl "" "" 2 then .ok ⟨none⟩
    else if url = getUrl "" "" 3 then .ok ⟨some (pageTxt [("k1", edgesTxt [nodeW "2024-01-11"])])⟩
    else .non200⟩

/-- `urqlState` whose first key holds well-formed data and whose last
key holds malformed JSON. -/
def urqlC4 : JObj :=
  urqlOf [("k1", edgesTxt [nodeW "2024-01-12"]), ("k2", "not json at all")]

/-- The parsed payload with `urqlC4` inside. -/
def joC4 : JVal :=
  .obj (.cons "props" (.obj (.cons "pageProps"
    (.obj (.cons "urqlState" (.obj urqlC4) .nil)) .nil)) .nil)

/-- Serialized page text of `joC4`. -/
def pageTxtC4 : String := jserial joC4

/-- Single-page environment serving `pageTxtC4`. -/
def envC4 : Env :=
  ⟨nowW, .ok "UA", fun _ url =>
    if url = getUrl "" "" 1 then .ok ⟨some pageTxtC4⟩ else .non200⟩

/-- The row of a listing node that omits every nested object. -/
def minRowW : Row := baseRowW ⟨-25567, 0⟩

/-- Sample rows for the append-semantics witness. -/
def rowA : Row := [(.str "title", .str "a")]

/-- Second sample row. -/
def rowB : Row := [(.str "title", .str "b"), (.str "price", .int 2)]

/-- A record with every expected column except `version`. -/
def nearRowW : Row :=
  [(.str "scrape_date", .str "2024-01-15"), (.str "created_date", .date ⟨19734, 0⟩),
   (.str "title", .str "t"), (.str "short_description", .str "s"),
   (.str "price", .int 1000), (.str "currency", .str "PLN"),
   (.str "cepik_verified", .bool true), (.str "make", .str "opel"),
   (.str "fuel_type", .str "petrol"), (.str "gearbox", .str "manual"),
   (.str "country_origin", .str "pl"), (.str "mileage", .int 100000),
   (.str "engine_capacity", .str "1 998"), (.str "engine_power", .int 90),
   (.str "model", .str "astra"), (.str "year", .int 2010)]

/-- Decidable equality for `Except` results. -/
instance {ε α : Type} [DecidableEq ε] [DecidableEq α] : DecidableEq (Except ε α) :=
  fun a b =>
  match a, b with
  | .error e1, .error e2 =>
      if h : e1 = e2 then isTrue (by rw [h]) else isFalse (by simp [h])
  | .ok v1, .ok v2 =>
      if h : v1 = v2 then isTrue (by rw [h]) else isFalse (by simp [h])
  | .error _, .ok _ => isFalse (by simp)
  | .ok _, .error _ => isFalse (by simp)

/-! ## Theorems -/

/-- Claim C10: appending a row to the accumulated table keeps every
existing row at its index, in order, and places the new row at the
end; appending to a not-yet-created table yields the singleton table.
This is the order the page loop relies on for the returned table. -/
theorem create_df_from_row_appends (df : Df) (row : Row) :
    (createDfFromRow (some df) row).length = df.length + 1 ∧
    (∀ i, i < df.length → (createDfFromRow (some df) row)[i]? = df[i]?) ∧
    (createDfFromRow (some df) row)[df.length]? = some row ∧
    createDfFromRow none row = [row] := by
  refine ⟨by simp [createDfFromRow], ?_, ?_, rfl⟩
  · intro i hi
    simp [createDfFromRow, List.getElem?_append, hi]
  · simp [createDfFromRow]

/-- Witness for C10 at concrete rows. -/
theorem create_df_from_row_appends_witness :
    (createDfFromRow (some [rowA]) rowB)[0]? = some rowA ∧
    (createDfFromRow (some [rowA]) rowB)[1]? = some rowB ∧
    createDfFromRow none rowA = [rowA] := by
  refine ⟨((create_df_from_row_appends [rowA] rowB).2.1 0 (by decide)).trans (by decide),
    ?_, (create_df_from_row_appends [rowA] rowA).2.2.2⟩
  have h := (create_df_from_row_appends [rowA] rowB).2.2.1
  simpa using h

/-- Claim C9: the extraction result does not depend on the headers the
caller supplies — `extarct` overwrites them with freshly generated
headers before any fetch. -/
theorem extract_ignores_supplied_headers (env : Env) (a : Args) (h1 h2 : String) :
    extarct env { a with headers := h1 } = extarct env { a with headers := h2 } := by
  cases a
  rfl

/-- Claim C6 (code bug): `days_ago = 0` passes the `days_ago >= 0`
bounded-mode guard but `_n_days_ago` asserts `n_days > 0`, so the run
raises `AssertionError` instead of computing the start-of-today
boundary; negative and strictly positive `days_ago` behave as the
claim says (boundary = start of day, N days before now). -/
theorem days_ago_zero_asserts :
    extarct envT (argsW 0 1 2) = .error .assertionError ∧
    extarct envT (argsW (-1) 1 2) = .ok (.pair none false) ∧
    extarct envT (argsW 2 1 2) = .ok (.pair none false) ∧
    nDaysAgo nowW 3 = .ok ⟨19734, 0⟩ := by
  refine ⟨by decide, by decide, by decide, by decide⟩

/-- Claim C8 (code bug): when one listing fails to normalize
(`_create_row_from_dict` returns `{}`), unpacking `row, creation_date`
raises, so the whole page aborts at the page-level handler: the
listings after the bad one — here a perfectly normalizable third
listing — are lost, not just the bad listing. -/
theorem listing_failure_aborts_page :
    processListings nowW none none
        [nodeW "2024-01-12", nodeW "garbage", nodeW "2024-01-05"] =
      .exc (some [baseRowW ⟨19734, 0⟩]) ∧
    createRowFromDict nowW (nodeW "2024-01-05") ≠ none := by
  constructor <;> decide

/-- Claim C7 (code bug): the normalizer does apply the documented
defaults for a node with no nested objects, but `transform` then
raises `KeyError` instead of filling missing expected columns: the
fill loop is guarded by `len(missing_columns) == 0`, so even a record
missing only `version` fails at the column projection. -/
theorem transform_minimal_record_raises :
    createRowFromDict nowW (.obj .nil) = some (minRowW, ⟨-25567, 0⟩) ∧
    transform [minRowW] = .error .keyError ∧
    transform [nearRowW] = .error .keyError ∧
    (validateDataframe [nearRowW] initExpectedColumns).1 = [.str "version"] := by
  refine ⟨by decide, by decide, by decide, by decide⟩

/-- Counterexample to claim C2: a page whose markup lacks the
embedded-state element makes `extarct` return Python `None` at once —
the record accumulated from page 1 is discarded and page 3 (which
parses fine, as the one-page run shows) is never processed. -/
theorem missing_element_discards_run :
    extarct envC2 (argsW (-1) 1 1) = .ok (.pair (some [baseRowW ⟨19734, 0⟩]) false) ∧
    extarct envC2 (argsW (-1) 1 3) = .ok .noneRet := by
  constructor <;> decide

/-- Claim C2 as amended: a page whose embedded-state element is absent
does not raise, but aborts the whole batch: `extarct` returns `None`
immediately, discarding the accumulated table, and the remaining pages
are not processed. -/
theorem missing_element_returns_none (env : Env) (brand model : String)
    (sd : Option PyDateTime) (headers : String) (df : Option Df) (fd : Option JVal)
    (p : Nat) (ps : List Nat)
    (h : env.fetch headers (getUrl brand model p) = .ok ⟨none⟩) :
    loopPages env brand model sd headers df fd (p :: ps) = .noneRet := by
  simp [loopPages, pageBody, h]

/-- Witness for the amended C2 at the concrete three-page run. -/
theorem missing_element_returns_none_witness :
    loopPages envC2 "" "" none "UA" none none [2, 3] = .noneRet :=
  missing_element_returns_none envC2 "" "" none "UA" none none 2 [3] (by decide)

/-- Appending through `_create_df_from_row` extends the rows by one. -/
theorem rowsOf_createDfFromRow (df : Option Df) (row : Row) :
    rowsOf (some (createDfFromRow df row)) = rowsOf df ++ [row] := by
  cases df <;> simp [rowsOf, createDfFromRow]

/-- The listing loop only ever appends: the incoming rows are a prefix
of the rows it hands to any of its outcomes. -/
theorem processListings_prefix (now : PyDateTime) (sd : Option PyDateTime)
    (l : List JVal) : ∀ df : Option Df,
    rowsOf df <+: rowsOf (loutDf (processListings now sd df l)) := by
  induction l with
  | nil => intro df; simp [processListings, loutDf]
  | cons x xs ih =>
    intro df
    simp only [processListings]
    cases h : createRowFromDict now x with
    | none => simp [loutDf]
    | some rc =>
      have hstep : rowsOf df <+:
          rowsOf (loutDf (processListings now sd (some (createDfFromRow df rc.1)) xs)) := by
        refine List.IsPrefix.trans ?_ (ih (some (createDfFromRow df rc.1)))
        rw [rowsOf_createDfFromRow]
        exact List.prefix_append _ _
      cases sd with
      | none => simpa using hstep
      | some sd2 =>
        by_cases hgt : isStopDateGreaterThanCreationDate rc.2 sd2
        · simp [hgt, loutDf]
        · simpa [hgt] using hstep

/-- Claim C3: any exception while fetching or parsing one page is
absorbed at page granularity: the loop simply continues with the next
page number, and the accumulated rows are preserved (the page-level
handler's state extends them). -/
theorem page_failure_isolation (env : Env) (brand model : String)
    (sd : Option PyDateTime) (headers : String) (df : Option Df) (fd : Option JVal)
    (p : Nat) (ps : List Nat) (df2 : Option Df) (fd2 : Option JVal)
    (h : pageBody env brand model sd headers df fd p = .exc df2 fd2) :
    loopPages env brand model sd headers df fd (p :: ps) =
      loopPages env brand model sd headers df2 fd2 ps ∧
    rowsOf df <+: rowsOf df2 := by
  refine ⟨by simp [loopPages, h], ?_⟩
  unfold pageBody at h
  split at h
  · cases h; exact List.prefix_refl _
  · cases h; exact List.prefix_refl _
  · split at h
    · cases h
    · split at h
      · cases h; exact List.prefix_refl _
      · split at h
        · cases h; exact List.prefix_refl _
        · split at h
          · cases h; exact List.prefix_refl _
          · split at h
            · cases h; exact List.prefix_refl _
            · cases h; exact List.prefix_refl _
            · split at h
              · cases h; exact List.prefix_refl _
              · split at h
                · cases h
                · cases h
                · rename_i hpl
                  cases h
                  have hp := processListings_prefix env.now sd ‹List JVal› df
                  rw [hpl] at hp
                  simpa [loutDf] using hp
        · cases h; exact List.prefix_refl _

/-- Witness for C3: a page whose fetch raises is skipped and the loop
continues with an unchanged accumulator. -/
theorem page_failure_isolation_witness :
    loopPages envRaise "" "" none "UA" none none [1, 2] =
      loopPages envRaise "" "" none "UA" none none [2] ∧
    rowsOf none <+: rowsOf none :=
  page_failure_isolation envRaise "" "" none "UA" none none 1 [2] none none rfl

/-- Claim C1: over a page's listing sequence under a stop-date
boundary, every listing before the first one strictly older than the
boundary is appended, in order, after the already-accumulated rows;
the first strictly-older listing triggers the forced stop, excluding
itself and everything after it; and a forced page outcome makes the
page loop return the accumulated table with `forced_stop = true`,
skipping all remaining pages. -/
theorem extract_monotonic_truncation :
    (∀ (now sd : PyDateTime) (df0 : Option Df) (l : List JVal)
        (rcs : List (Row × PyDateTime)),
        l.map (createRowFromDict now) = rcs.map some →
        (rcs.any fun rc => dtGT sd rc.2) = true →
        processListings now (some sd) df0 l =
          .forced (dfAppendRows df0
            ((rcs.takeWhile fun rc => !(dtGT sd rc.2)).map Prod.fst))) ∧
    (∀ (env : Env) (brand model : String) (sd : Option PyDateTime)
        (headers : String) (df : Option Df) (fd : Option JVal)
        (p : Nat) (ps : List Nat) (res : Option Df),
        pageBody env brand model sd headers df fd p = .retForced res →
        loopPages env brand model sd headers df fd (p :: ps) = .pair res true) := by
  constructor
  · intro now sd df0 l
    induction l generalizing df0 with
    | nil =>
      intro rcs hmap hany
      cases rcs with
      | nil => simp at hany
      | cons rc rcs2 => simp at hmap
    | cons x xs ih =>
      intro rcs hmap hany
      cases rcs with
      | nil => simp at hmap
      | cons rc rcs2 =>
        simp only [List.map_cons, List.cons.injEq] at hmap
        obtain ⟨hx, hxs⟩ := hmap
        simp only [processListings, hx]
        cases hgt : dtGT sd rc.2 with
        | true =>
          simp [isStopDateGreaterThanCreationDate, hgt, List.takeWhile_cons,
            dfAppendRows]
        | false =>
          have hany2 : (rcs2.any fun rc => dtGT sd rc.2) = true := by
            simpa [List.any_cons, hgt] using hany
          simp only [isStopDateGreaterThanCreationDate, hgt, Bool.false_eq_true,
            if_false, List.takeWhile_cons, Bool.not_false, if_true]
          rw [ih (some (createDfFromRow df0 rc.1)) rcs2 hxs hany2]
          rfl
  · intro env brand model sd headers df fd p ps res h
    simp [loopPages, h]

/-- Witness for C1: listings dated 2024-01-12 and 2024-01-09 against
the boundary 2024-01-10 — the first is kept, the second forces the
stop and is excluded. -/
theorem extract_monotonic_truncation_witness :
    processListings nowW (some sdW) none [nodeW "2024-01-12", nodeW "2024-01-09"] =
      .forced (dfAppendRows none
        ((rcsW.takeWhile fun rc => !(dtGT sdW rc.2)).map Prod.fst)) :=
  extract_monotonic_truncation.1 nowW sdW none
    [nodeW "2024-01-12", nodeW "2024-01-09"] rcsW (by decide) (by decide)

/-- Counterexample to claim C4: with the last key's `data` blob being
malformed JSON and the first key holding a perfectly good listing, the
page fails wholesale (`.exc`, zero records) instead of falling back to
the first key — the `ValueError` that `_get_data_with_key` re-raises
for malformed JSON is not caught by the `except KeyError` fallback. -/
theorem malformed_last_key_no_fallback :
    getDataWithKey joC4 "k2" = .valErr ∧
    getDataWithKey joC4 "k1" = .ok (.arr (.cons (nodeW "2024-01-12") .nil)) ∧
    pageBody envC4 "" "" none "UA" none none 1 = .exc none none := by
  refine ⟨by decide, by decide, by decide⟩

/-- Claim C4 as amended: the last inserted key is tried first and the
fallback to the first inserted key happens only on `KeyError`-class
failures (missing key, entry without a usable string `data` field);
malformed JSON under the last key escapes as `ValueError` to the
page-level handler, which drops the page and moves on; a well-formed
blob lacking `advertSearch` yields an empty edge list with no
fallback; and when both lookups fail the previously bound
`final_data` is silently reused. -/
theorem key_fallback_behavior :
    (∀ (jo : JVal) (lk fk : String) (fd : Option JVal) (v : JVal),
        getDataWithKey jo lk = .ok v → resolveFinalData jo lk fk fd = some (some v)) ∧
    (∀ (jo : JVal) (lk fk : String) (fd : Option JVal) (v : JVal),
        getDataWithKey jo lk = .keyErr → getDataWithKey jo fk = .ok v →
        resolveFinalData jo lk fk fd = some (some v)) ∧
    (∀ (jo : JVal) (lk fk : String) (fd : Option JVal),
        getDataWithKey jo lk = .keyErr → (∀ v, getDataWithKey jo fk ≠ .ok v) →
        resolveFinalData jo lk fk fd = some fd) ∧
    (∀ (jo : JVal) (lk fk : String) (fd : Option JVal),
        getDataWithKey jo lk = .valErr → resolveFinalData jo lk fk fd = none) ∧
    (∀ (ukvs ekvs : JObj) (djkvs : JObj) (jo : JVal) (lk : String) (s : String),
        urqlStateOf jo = some (.obj ukvs) → ukvs.get lk = some (.obj ekvs) →
        ekvs.get "data" = some (.str s) → pyJsonLoads s = .ok (.obj djkvs) →
        djkvs.get "advertSearch" = none →
        getDataWithKey jo lk = .ok (.arr .nil)) ∧
    (∀ (env : Env) (brand model : String) (sd : Option PyDateTime)
        (headers : String) (df : Option Df) (fd : Option JVal)
        (p : Nat) (ps : List Nat) (txt : String) (jo : JVal) (ukvs : JObj)
        (k : String) (ks : List String),
        env.fetch headers (getUrl brand model p) = .ok ⟨some txt⟩ →
        pyJsonLoads txt = .ok jo →
        urqlStateOf jo = some (.obj ukvs) →
        ukvs.keys = k :: ks →
        resolveFinalData jo ((k :: ks).getLastD "") k fd = none →
        loopPages env brand model sd headers df fd (p :: ps) =
          loopPages env brand model sd headers df fd ps) := by
  refine ⟨?_, ?_, ?_, ?_, ?_, ?_⟩
  · intro jo lk fk fd v h
    simp [resolveFinalData, h]
  · intro jo lk fk fd v h1 h2
    simp [resolveFinalData, h1, h2]
  · intro jo lk fk fd h1 h2
    cases hfk : getDataWithKey jo fk with
    | ok v => exact absurd hfk (h2 v)
    | keyErr => simp [resolveFinalData, h1, hfk]
    | valErr => simp [resolveFinalData, h1, hfk]
    | otherErr => simp [resolveFinalData, h1, hfk]
  · intro jo lk fk fd h
    simp [resolveFinalData, h]
  · intro ukvs ekvs djkvs jo lk s h1 h2 h3 h4 h5
    simp [getDataWithKey, h1, h2, h3, h4, JObj.getD, h5, JObj.get]
  · intro env brand model sd headers df fd p ps txt jo ukvs k ks h1 h2 h3 h4 h5
    simp only [List.getLastD_eq_getLast?] at h5
    simp [loopPages, pageBody, h1, h2, h3, h4, h5]

/-- Witness for the amended C4 at the concrete payload: the malformed
last key makes the resolution raise, and the page loop moves past the
page unchanged. -/
theorem key_fallback_behavior_witness :
    resolveFinalData joC4 "k2" "k1" none = none ∧
    loopPages envC4 "" "" none "UA" none none [1] =
      loopPages envC4 "" "" none "UA" none none [] := by
  constructor
  · exact key_fallback_behavior.2.2.2.1 joC4 "k2" "k1" none (by decide)
  · exact key_fallback_behavior.2.2.2.2.2 envC4 "" "" none "UA" none none 1 []
      pageTxtC4 joC4 urqlC4 "k1" ["k2"] (by decide) (by decide) (by decide)
      (by decide) (by decide)

/-- Consuming a literal prefix succeeds exactly on that prefix. -/
theorem dropLit_append (l cs : List Char) : dropLit l (l ++ cs) = some cs := by
  induction l with
  | nil => rfl
  | cons c l ih => simp [dropLit, ih]

/-- A successful literal consumption decomposes the input. -/
theorem dropLit_eq_append {l cs r : List Char} (h : dropLit l cs = some r) :
    cs = l ++ r := by
  induction l generalizing cs with
  | nil =>
    simp only [dropLit, Option.some.injEq] at h
    simp [h]
  | cons c l ih =>
    cases cs with
    | nil => simp [dropLit] at h
    | cons c2 cs2 =>
      simp only [dropLit] at h
      split at h
      · rename_i heq
        subst heq
        rw [ih h]
        rfl
      · cases h

/-- Splitting a run: `takeWhile`/`dropWhile` over a satisfied prefix
followed by a failing element. -/
theorem span_append_of (p : Char → Bool) (xs : List Char) (y : Char) (ys : List Char)
    (hxs : ∀ c ∈ xs, p c = true) (hy : p y = false) :
    (xs ++ y :: ys).takeWhile p = xs ∧ (xs ++ y :: ys).dropWhile p = y :: ys := by
  induction xs with
  | nil => simp [List.takeWhile_cons, List.dropWhile_cons, hy]
  | cons c cs ih =>
    have hc : p c = true := hxs c (by simp)
    have ih2 := ih (fun d hd => hxs d (by simp [hd]))
    simp [List.takeWhile_cons, List.dropWhile_cons, hc, ih2.1, ih2.2]

/-- `dropWhile` is the identity when no element satisfies the test. -/
theorem dropWhile_eq_self_of (p : Char → Bool) (l : List Char)
    (h : ∀ c ∈ l, p c = false) : l.dropWhile p = l := by
  cases l with
  | nil => rfl
  | cons c cs => simp [List.dropWhile_cons, h c (by simp)]

/-- A decimal digit is not regex whitespace. -/
theorem digit_not_pyspace (c : Char) (h : c.isDigit = true) : isPySpace c = false := by
  cases hb : isPySpace c
  · rfl
  · exfalso
    unfold isPySpace at hb
    simp only [Bool.or_eq_true, decide_eq_true_eq] at hb
    rcases hb with ((((((rfl | rfl) | rfl) | rfl) | rfl) | rfl) | rfl) <;>
      exact absurd h (by decide)

/-- A decimal digit is in the class `[\d\s]`. -/
theorem digit_digitSpace (c : Char) (h : c.isDigit = true) : isDigitSpace c = true := by
  simp [isDigitSpace, h]

/-- Stripping whitespace from a digit string changes nothing. -/
theorem stripPySpace_digits (ds : List Char) (h : ∀ c ∈ ds, c.isDigit = true) :
    stripPySpace ds = ds := by
  unfold stripPySpace
  rw [dropWhile_eq_self_of _ _ (fun c hc => digit_not_pyspace c (h c hc))]
  rw [dropWhile_eq_self_of _ _
    (fun c hc => digit_not_pyspace c (h c (List.mem_reverse.mp hc)))]
  exact List.reverse_reverse ds

/-- `int` on a non-empty digit string is its numeric value. -/
theorem pyInt_digits (ds : List Char) (hne : ds ≠ []) (h : ∀ c ∈ ds, c.isDigit = true) :
    pyInt ds = some ((digitsToNat ds : Int)) := by
  unfold pyInt
  rw [stripPySpace_digits ds h]
  obtain ⟨d, tl, rfl⟩ := List.exists_cons_of_ne_nil hne
  have hd : d.isDigit = true := h d (by simp)
  have hminus : (d = '-') = False := by
    simp only [eq_iff_iff, iff_false]
    rintro rfl; exact absurd hd (by decide)
  have hplus : (d = '+') = False := by
    simp only [eq_iff_iff, iff_false]
    rintro rfl; exact absurd hd (by decide)
  have hall : (d :: tl).all Char.isDigit = true := List.all_eq_true.mpr h
  simp [hminus, hplus, hall]

/-- Removing plain spaces from a digit string changes nothing. -/
theorem filter_space_digits (ds : List Char) (h : ∀ c ∈ ds, c.isDigit = true) :
    (ds.filter fun c => c ≠ ' ') = ds := by
  refine List.filter_eq_self.mpr fun c hc => ?_
  have hd := h c hc
  have hcne : c ≠ ' ' := by rintro rfl; exact absurd hd (by decide)
  simp [hcne]

/-- The tail pattern matches the canonical markup, capturing exactly
the digit run. -/
theorem matchTailPat_canonical (ds : List Char) (hne : ds ≠ [])
    (h : ∀ c ∈ ds, c.isDigit = true) :
    matchTailPat (" <!-- --><b>".data ++ (ds ++ "</b>".data)) = some ds := by
  show (if (ds ++ "</b>".data).takeWhile isDigitSpace = [] then none
        else match dropLit "</b>".data ((ds ++ "</b>".data).dropWhile isDigitSpace) with
             | none => none
             | some _ => some ((ds ++ "</b>".data).takeWhile isDigitSpace)) = some ds
  rw [show ("</b>".data : List Char) = '<' :: '/' :: 'b' :: '>' :: [] from rfl]
  obtain ⟨htake, hdrop⟩ := span_append_of isDigitSpace ds '<' ['/', 'b', '>']
    (fun c hc => digit_digitSpace c (h c hc)) (by decide)
  rw [htake, hdrop]
  simp only [hne, if_false]
  rw [show dropLit ('<' :: '/' :: 'b' :: '>' :: []) ('<' :: '/' :: 'b' :: '>' :: [])
        = some [] from by decide]

/-- `re.search` succeeds when the pattern matches at the head. -/
theorem scanPat_head_some {cs g : List Char}
    (h : (dropLit labelChars cs).bind matchTailPat = some g) : scanPat cs = some g := by
  cases cs with
  | nil =>
    rw [show dropLit labelChars ([] : List Char) = none from rfl] at h
    cases h
  | cons c cs2 =>
    simp only [scanPat]
    rw [h]

/-- The search finds the pattern in the canonical markup. -/
theorem scanPat_canonical (ds : List Char) (hne : ds ≠ [])
    (h : ∀ c ∈ ds, c.isDigit = true) :
    scanPat (labelChars ++ (" <!-- --><b>".data ++ (ds ++ "</b>".data))) = some ds := by
  apply scanPat_head_some
  rw [dropLit_append]
  simpa using matchTailPat_canonical ds hne h

/-- The search fails on markup that does not contain the label. -/
theorem scanPat_none (cs : List Char) (h : ¬ labelChars <:+: cs) : scanPat cs = none := by
  induction cs with
  | nil => rfl
  | cons c cs2 ih =>
    have hb : (dropLit labelChars (c :: cs2)).bind matchTailPat = none := by
      cases hdl : dropLit labelChars (c :: cs2) with
      | none => rfl
      | some r =>
        exfalso
        exact h ⟨[], r, by simpa using (dropLit_eq_append hdl).symm⟩
    simp only [scanPat]
    rw [hb]
    exact ih (fun hin => h (List.infix_cons hin))

/-- Claim C5: on index markup carrying the localized ad-count element
with count `n`, `_find_page_num` returns exactly `ceil(n/32)`; when
the count element is absent it raises `ValueError`; and the
computation is deterministic in the markup. -/
theorem find_page_num_spec :
    (∀ (ds : List Char) (n : Nat), ds ≠ [] → (∀ c ∈ ds, c.isDigit = true) →
        digitsToNat ds = n →
        findPageNum (mkAdCountMarkup ds) = .ok (((n : Int) + 31) / 32)) ∧
    (∀ s : String, ¬ (labelChars <:+: s.data) → findPageNum s = .error .valueError) ∧
    (∀ s : String, findPageNum s = findPageNum s) := by
  refine ⟨?_, ?_, fun _ => rfl⟩
  · intro ds n hne hdig hval
    subst hval
    have hdata : (mkAdCountMarkup ds).data
        = labelChars ++ (" <!-- --><b>".data ++ (ds ++ "</b>".data)) := by
      simp [mkAdCountMarkup]
    simp only [findPageNum, hdata, scanPat_canonical ds hne hdig,
      filter_space_digits ds hdig, pyInt_digits ds hne hdig]
  · intro s h
    simp only [findPageNum, scanPat_none s.data h]

/-- Witness for C5: the documented counts 97, 65, 32 and 0 give 4, 3,
1 and 0 pages, and label-free markup raises. -/
theorem find_page_num_spec_witness :
    findPageNum (mkAdCountMarkup ['9', '7']) = .ok 4 ∧
    findPageNum (mkAdCountMarkup ['6', '5']) = .ok 3 ∧
    findPageNum (mkAdCountMarkup ['3', '2']) = .ok 1 ∧
    findPageNum (mkAdCountMarkup ['0']) = .ok 0 ∧
    findPageNum "no ad count element here" = .error .valueError := by
  refine ⟨?_, ?_, ?_, ?_, ?_⟩
  · exact (find_page_num_spec.1 ['9', '7'] 97 (by decide) (by decide) (by decide)).trans
      (by decide)
  · exact (find_page_num_spec.1 ['6', '5'] 65 (by decide) (by decide) (by decide)).trans
      (by decide)
  · exact (find_page_num_spec.1 ['3', '2'] 32 (by decide) (by decide) (by decide)).trans
      (by decide)
  · exact (find_page_num_spec.1 ['0'] 0 (by decide) (by decide) (by decide)).trans
      (by decide)
  · exact find_page_num_spec.2.1 "no ad count element here" (by decide)

end CarData
